import Mathlib

/-!
# Linear actuator with position feedback: Validate and Home

A shallow embedding of `module.go` (package `linearactuatorwithposition`).

* Go errors are carried with their message text; `fmt.Errorf` with `%w` keeps the cause.
* `map[string]interface{}` is a finite map read by key, embedded as a function from keys to
  optional dynamically typed values.
* `float64` values are only stored, copied and handed to the motor by this module (no
  arithmetic, no comparison), so they are carried as rationals.
* The motor and the sensor are external collaborators. Their answers are given by a `World`:
  each answer may depend on every call made so far, which covers every deterministic
  stateful fake or device. `Home` threads the list of calls it has made.
-/

namespace LinearActuator

/-! ## Data model -/

/-- Go `error` values (non-nil): `new` is `errors.New` or `fmt.Errorf` without `%w`,
`wrap` is `fmt.Errorf` with `%w`; `msg` is the fully formatted text in both cases. -/
inductive GoError where
  | new (msg : String)
  | wrap (msg : String) (cause : GoError)
  deriving DecidableEq, Repr

/-- The `Error()` method: the message text. -/
def GoError.Error : GoError → String
  | .new msg => msg
  | .wrap msg _ => msg

/-- The call `fmt.Errorf(context + ": %w", err)` with `context` ending in `": "`. -/
def GoError.wrapf (context : String) (err : GoError) : GoError :=
  .wrap (context ++ err.Error) err

/-- A message mentions a text when the text occurs in it as a contiguous run of characters. -/
def mentions (msg needle : String) : Prop := needle.data <:+: msg.data

instance (msg needle : String) : Decidable (mentions msg needle) := by
  unfold mentions; infer_instance

/-- Values of type `float64`. The module only stores them, copies them and passes them to
the motor, so the rationals stand for them; `0` is the zero value. -/
abbrev Float64 := ℚ

/-- The type `SensorConfig`. -/
structure SensorConfig where
  Name : String
  PositionField : String
  deriving DecidableEq, Repr

/-- The type `Config`; `StrokeLength` and `MaxExtensionTime` are `int32` in the source and
only compared with zero or converted to a duration, so they are carried as integers. -/
structure Config where
  StrokeLength : Int
  MaxExtensionTime : Option Int
  Motor : String
  Sensor : SensorConfig
  deriving DecidableEq, Repr

/-- The method `Config.Validate`: required dependencies, optional dependencies, error.
A nil slice is the empty list. -/
def Config.Validate (cfg : Config) (_path : String) :
    List String × List String × Option GoError :=
  if cfg.StrokeLength ≤ 0 then
    ([], [], some (.new "stroke_length must be greater than 0"))
  else if cfg.Motor = "" then
    ([], [], some (.new "motor must be specified"))
  else if cfg.Sensor.Name = "" then
    ([], [], some (.new "position-sensor name must be specified"))
  else if cfg.Sensor.PositionField = "" then
    ([], [], some (.new "position-sensor's position_field must be specified"))
  else
    ([cfg.Motor, cfg.Sensor.Name], [], none)

/-! ## Collaborators and actuator state -/

/-- A dynamically typed Go value (`interface{}`) as found in a reading set. -/
inductive Value where
  | float64 (v : Float64)
  | int (n : Int)
  | str (s : String)
  | bool (b : Bool)
  | nil
  deriving DecidableEq, Repr

/-- The type `map[string]interface{}`: indexing yields the value and whether the key is
present. The nil map has no keys. -/
abbrev Readings := String → Option Value

/-- The comma-ok type assertion `v, ok = x.(float64)`: on failure `v` is the zero value. -/
def Value.assertFloat64 : Value → Float64 × Bool
  | .float64 v => (v, true)
  | _ => (0, false)

/-- The calls `Home` makes on the outside: `motor.SetPower`, `time.Sleep` (whole seconds),
`positionSensor.Readings`. -/
inductive Call where
  | setPower (power : Float64)
  | sleep (seconds : Int)
  | readings
  deriving DecidableEq, Repr

/-- The behaviour of everything outside the actuator.
* `motor h p`: what `SetPower(ctx, p, extra)` returns after the calls `h` (`none` is nil);
* `sensor h`: what `Readings(ctx, extra)` returns after the calls `h`;
* `closeDuring h`: whether another goroutine calls `Close` on the actuator while it is
  blocked in the `time.Sleep` issued after the calls `h`. -/
structure World where
  motor : List Call → Float64 → Option GoError
  sensor : List Call → Except GoError Readings
  closeDuring : List Call → Bool

/-- The mutable and configured fields of `linearActuatorWithPositionLinearActuator` that the
methods read or write. The two `*float64` bounds are carried by the value they point to
(`none` is nil); `cancelled` is whether `cancelFunc` has run, i.e. whether `cancelCtx` is
done. -/
structure linearActuatorWithPositionLinearActuator where
  strokeLength : Int
  maxExtensionTime : Option Int
  positionSensorField : String
  maxSensorPosition : Option Float64
  minSensorPosition : Option Float64
  cancelled : Bool
  deriving DecidableEq, Repr

/-- Short name of the actuator type. -/
abbrev Actuator := linearActuatorWithPositionLinearActuator

/-- What a method call leaves behind: its result value, its error (`none` is nil), the
actuator afterwards and all outside calls made so far. -/
structure Outcome (α : Type) where
  value : α
  err : Option GoError
  state : Actuator
  calls : List Call

/-! ## Methods -/

/-- The method `Close`: runs `cancelFunc` and returns nil. -/
def Close (s : Actuator) (h : List Call) : Outcome Unit :=
  ⟨(), none, { s with cancelled := true }, h⟩

/-- The number of seconds of one transit wait: `*s.maxExtensionTime`, or 30 when it is nil. -/
def transitSeconds (s : Actuator) : Int :=
  match s.maxExtensionTime with
  | some t => t
  | none => 30

/-- The actuator after one `time.Sleep` of `Home` started after the calls `h`: a `Close`
arriving from another goroutine meanwhile has taken effect. -/
def duringWait (W : World) (s : Actuator) (h : List Call) : Actuator :=
  if W.closeDuring h then (Close s h).state else s

/-- The assignment `s.maxSensorPosition = &positionValue`, with `positionValue` holding `v`. -/
def linearActuatorWithPositionLinearActuator.setMaxSensorPosition (s : Actuator) (v : Float64) : Actuator :=
  { s with maxSensorPosition := some v }

/-- The assignment `s.minSensorPosition = &positionValue`, with `positionValue` holding `v`. -/
def linearActuatorWithPositionLinearActuator.setMinSensorPosition (s : Actuator) (v : Float64) : Actuator :=
  { s with minSensorPosition := some v }

/-- The method `Home`, statement by statement. `h0` is the list of outside calls made before.

Both bounds are assigned the address of the one local `positionValue`, so once the second
type assertion has rewritten that variable, `s.maxSensorPosition` reads the new contents. -/
def Home (W : World) (s : Actuator) (h0 : List Call) : Outcome Bool :=
  -- err := s.motor.SetPower(ctx, 1.0, extra)
  let h1 := h0 ++ [Call.setPower 1]
  match W.motor h0 1 with
  | some err =>
    ⟨false, some (.wrapf "failed to start motor power extending actuator: " err), s, h1⟩
  | none =>
  -- time.Sleep(...)
  let h2 := h1 ++ [Call.sleep (transitSeconds s)]
  let s1 := duringWait W s h1
  -- err = s.motor.SetPower(ctx, 0.0, extra)
  let h3 := h2 ++ [Call.setPower 0]
  match W.motor h2 0 with
  | some err =>
    ⟨false, some (.wrapf "failed to stop motor power extending actuator: " err), s1, h3⟩
  | none =>
  -- readings, err := s.positionSensor.Readings(ctx, extra)
  let h4 := h3 ++ [Call.readings]
  match W.sensor h3 with
  | .error err =>
    ⟨false, some (.wrapf "failed to read position sensor at full extension: " err), s1, h4⟩
  | .ok readings =>
  -- position, ok := readings[s.positionSensorField]
  match readings s1.positionSensorField with
  | none =>
    ⟨false, some (.new ("position sensor field " ++ s1.positionSensorField ++ " not found")),
      s1, h4⟩
  | some position =>
  -- positionValue, ok := position.(float64)
  if (position.assertFloat64).2 = false then
    ⟨false, some (.new ("position sensor field " ++ s1.positionSensorField
      ++ " is not a float64")), s1, h4⟩
  else
  -- s.maxSensorPosition = &positionValue
  let s2 := s1.setMaxSensorPosition (position.assertFloat64).1
  -- err = s.motor.SetPower(ctx, -1.0, extra)
  let h5 := h4 ++ [Call.setPower (-1)]
  match W.motor h4 (-1) with
  | some err =>
    ⟨false, some (.wrapf "failed to start motor power retracting actuatory: " err), s2, h5⟩
  | none =>
  -- time.Sleep(...)
  let h6 := h5 ++ [Call.sleep (transitSeconds s2)]
  let s3 := duringWait W s2 h5
  -- readings, err = s.positionSensor.Readings(ctx, extra)
  let h7 := h6 ++ [Call.readings]
  match W.sensor h6 with
  | .error err =>
    ⟨false, some (.wrapf "failed to read position sensor at retracted extension: " err),
      s3, h7⟩
  | .ok _readings =>
  -- positionValue, ok = position.(float64)   (position is still the first lookup)
  let s4 := s3.setMaxSensorPosition (position.assertFloat64).1
  if (position.assertFloat64).2 = false then
    ⟨false, some (.new ("position sensor field " ++ s4.positionSensorField
      ++ " is not a float64")), s4, h7⟩
  else
  -- s.minSensorPosition = &positionValue
  ⟨true, none, s4.setMinSensorPosition (position.assertFloat64).1, h7⟩

/-- The method `Position`. A nil slice is the empty list. -/
def Position (s : Actuator) (h : List Call) (_extra : Readings) : Outcome (List Float64) :=
  ⟨[], some (.new "not implemented"), s, h⟩

/-- The method `Lengths`. -/
def Lengths (s : Actuator) (h : List Call) (_extra : Readings) : Outcome (List Float64) :=
  ⟨[], some (.new "not implemented"), s, h⟩

/-- The method `MoveToPosition`. -/
def MoveToPosition (s : Actuator) (h : List Call) (_positionsMm _speedsMmPerSec : List Float64)
    (_extra : Readings) : Outcome Unit :=
  ⟨(), some (.new "not implemented"), s, h⟩

/-- The method `Stop`. -/
def Stop (s : Actuator) (h : List Call) (_extra : Readings) : Outcome Unit :=
  ⟨(), some (.new "not implemented"), s, h⟩

/-- The method `Kinematics`: the zero value of the interface type `referenceframe.Model` is nil. -/
def Kinematics {Model : Type} (s : Actuator) (h : List Call) : Outcome (Option Model) :=
  ⟨none, some (.new "not implemented"), s, h⟩

/-- The method `CurrentInputs`; a `referenceframe.Input` is carried by its `float64`. -/
def CurrentInputs (s : Actuator) (h : List Call) : Outcome (List Float64) :=
  ⟨[], some (.new "not implemented"), s, h⟩

/-- The method `GoToInputs`. -/
def GoToInputs (s : Actuator) (h : List Call) (_inputSteps : List (List Float64)) :
    Outcome Unit :=
  ⟨(), some (.new "not implemented"), s, h⟩

/-- The method `DoCommand`: the nil map has no keys. -/
def DoCommand (s : Actuator) (h : List Call) (_cmd : Readings) : Outcome Readings :=
  ⟨fun _ => none, some (.new "not implemented"), s, h⟩

/-- The method `IsMoving`. -/
def IsMoving (s : Actuator) (h : List Call) : Outcome Bool :=
  ⟨false, some (.new "not implemented"), s, h⟩

/-- The power commands among a list of outside calls, in order. -/
def powerCommands : List Call → List Float64
  | [] => []
  | Call.setPower p :: cs => p :: powerCommands cs
  | _ :: cs => powerCommands cs

/-- The outside calls made by a method started after the calls `h0`. -/
def Outcome.issued {α : Type} (r : Outcome α) (h0 : List Call) : List Call :=
  r.calls.drop h0.length

/-- The outside calls already made when `Home`, started after the calls `h0`, reads the
sensor for the first time. -/
def firstReadAt (s : Actuator) (h0 : List Call) : List Call :=
  h0 ++ [Call.setPower 1, Call.sleep (transitSeconds s), Call.setPower 0]

/-- The outside calls already made when `Home`, started after the calls `h0`, reads the
sensor for the second time. -/
def secondReadAt (s : Actuator) (h0 : List Call) : List Call :=
  h0 ++ [Call.setPower 1, Call.sleep (transitSeconds s), Call.setPower 0, Call.readings,
    Call.setPower (-1), Call.sleep (transitSeconds s)]

/-! ## Fakes used to exercise the model -/

/-- A reading set with the single field `field` holding `v`. -/
def singleField (field : String) (v : Value) : Readings :=
  fun k => if k = field then some v else none

/-- The reading set with no field. -/
def noField : Readings := fun _ => none

/-- Whether a `Readings` call was already made. -/
def readBefore (h : List Call) : Bool := h.contains Call.readings

/-- A motor accepting every command, with a sensor whose first answer is `first` and whose
later answers are `later`; nobody closes the actuator. -/
def fakeWorld (first later : Readings) : World where
  motor := fun _ _ => none
  sensor := fun h => if readBefore h then .ok later else .ok first
  closeDuring := fun _ => false

/-- A motor that refuses the retract command and accepts the others, with a sensor always
answering `pos = 100`; nobody closes the actuator. -/
def stallOnRetract : World where
  motor := fun _ p => if p = -1 then some (.new "stalled") else none
  sensor := fun _ => .ok (singleField "pos" (.float64 100))
  closeDuring := fun _ => false

/-- A motor accepting every command, a sensor always answering `pos = 100`, and a `Close`
arriving during the first transit wait of a `Home` started with no earlier call. -/
def closedMidWait : World where
  motor := fun _ _ => none
  sensor := fun _ => .ok (singleField "pos" (.float64 100))
  closeDuring := fun h => h = [Call.setPower 1]

/-- An actuator as `NewLinearActuator` leaves it: bounds nil, scope not cancelled. -/
def freshActuator (field : String) (maxExtensionTime : Option Int) : Actuator where
  strokeLength := 100
  maxExtensionTime := maxExtensionTime
  positionSensorField := field
  maxSensorPosition := none
  minSensorPosition := none
  cancelled := false

/-! ## Auxiliary facts -/

theorem mentions_mid (a f b : String) : mentions (a ++ f ++ b) f := by
  unfold mentions
  refine ⟨a.data, b.data, ?_⟩
  simp [String.data_append]

theorem duringWait_field (W : World) (s : Actuator) (h : List Call) :
    (duringWait W s h).positionSensorField = s.positionSensorField := by
  unfold duringWait Close
  split <;> rfl

theorem duringWait_max (W : World) (s : Actuator) (h : List Call) :
    (duringWait W s h).maxSensorPosition = s.maxSensorPosition := by
  unfold duringWait Close
  split <;> rfl

theorem duringWait_min (W : World) (s : Actuator) (h : List Call) :
    (duringWait W s h).minSensorPosition = s.minSensorPosition := by
  unfold duringWait Close
  split <;> rfl

theorem duringWait_seconds (W : World) (s : Actuator) (h : List Call) :
    transitSeconds (duringWait W s h) = transitSeconds s := by
  have hmt : (duringWait W s h).maxExtensionTime = s.maxExtensionTime := by
    unfold duringWait Close
    split <;> rfl
  unfold transitSeconds
  rw [hmt]

theorem setMax_seconds (s : Actuator) (v : Float64) :
    transitSeconds (s.setMaxSensorPosition v) = transitSeconds s := rfl

theorem setMax_field (s : Actuator) (v : Float64) :
    (s.setMaxSensorPosition v).positionSensorField = s.positionSensorField := rfl

theorem setMax_max (s : Actuator) (v : Float64) :
    (s.setMaxSensorPosition v).maxSensorPosition = some v := rfl

theorem setMax_min (s : Actuator) (v : Float64) :
    (s.setMaxSensorPosition v).minSensorPosition = s.minSensorPosition := rfl

theorem setMin_max (s : Actuator) (v : Float64) :
    (s.setMinSensorPosition v).maxSensorPosition = s.maxSensorPosition := rfl

theorem setMin_min (s : Actuator) (v : Float64) :
    (s.setMinSensorPosition v).minSensorPosition = some v := rfl

theorem assertFloat64_ok (x : Value) (h : ¬ (x.assertFloat64).2 = false) :
    x = Value.float64 (x.assertFloat64).1 := by
  cases x <;> simp_all [Value.assertFloat64]

/-- Shape of a run of `Home` that returns `true`. -/
theorem Home_of_value_true (W : World) (s : Actuator) (h0 : List Call)
    (hv : (Home W s h0).value = true) :
    ∃ rs v rs2,
      W.sensor (firstReadAt s h0) = .ok rs ∧
      rs s.positionSensorField = some (Value.float64 v) ∧
      W.sensor (secondReadAt s h0) = .ok rs2 ∧
      (Home W s h0).err = none ∧
      (Home W s h0).state.maxSensorPosition = some v ∧
      (Home W s h0).state.minSensorPosition = some v ∧
      (Home W s h0).calls = secondReadAt s h0 ++ [Call.readings] := by
  cases c1 : W.motor h0 1 with
  | some e => simp [Home, c1] at hv
  | none =>
  cases c2 : W.motor (h0 ++ [Call.setPower 1, Call.sleep (transitSeconds s)]) 0 with
  | some e => simp [Home, c1, c2] at hv
  | none =>
  cases c3 : W.sensor (firstReadAt s h0) with
  | error e =>
    simp only [firstReadAt] at c3
    simp [Home, c1, c2, c3] at hv
  | ok rs =>
  cases c4 : rs s.positionSensorField with
  | none =>
    simp only [firstReadAt] at c3
    simp [Home, c1, c2, c3, duringWait_field, c4] at hv
  | some position =>
  by_cases c5 : (position.assertFloat64).2 = false
  · simp only [firstReadAt] at c3
    simp [Home, c1, c2, c3, duringWait_field, c4, c5] at hv
  cases c6 : W.motor (h0 ++ [Call.setPower 1, Call.sleep (transitSeconds s), Call.setPower 0,
    Call.readings]) (-1) with
  | some e =>
    simp only [firstReadAt] at c3
    simp [Home, c1, c2, c3, duringWait_field, c4, c5, c6] at hv
  | none =>
  cases c7 : W.sensor (secondReadAt s h0) with
  | error e =>
    simp only [firstReadAt, secondReadAt] at c3 c7
    simp [Home, c1, c2, c3, duringWait_field, c4, c5, c6, duringWait_seconds,
      setMax_seconds, c7] at hv
  | ok rs2 =>
  refine ⟨rs, (position.assertFloat64).1, rs2, rfl, ?_, rfl, ?_⟩
  · rw [c4, ← assertFloat64_ok position c5]
  simp only [firstReadAt, secondReadAt] at c3 c7 ⊢
  simp [Home, c1, c2, c3, duringWait_field, c4, c5, c6, duringWait_seconds,
      setMax_seconds, c7, duringWait_max, duringWait_min, setMax_max, setMin_max, setMin_min,
      setMax_min]

theorem duringWait_congr (W W' : World) (hclose : W'.closeDuring = W.closeDuring)
    (s : Actuator) (h : List Call) : duringWait W' s h = duringWait W s h := by
  unfold duringWait
  rw [hclose]

/-- Two worlds that differ at most in the contents of a successful second reading set give
the same run of `Home`. -/
theorem Home_congr_second (W W' : World) (s : Actuator) (h0 : List Call)
    (hmotor : W'.motor = W.motor) (hclose : W'.closeDuring = W.closeDuring)
    (hfirst : W'.sensor (firstReadAt s h0) = W.sensor (firstReadAt s h0))
    (hsecond : W'.sensor (secondReadAt s h0) = W.sensor (secondReadAt s h0) ∨
      ∃ rs rs', W.sensor (secondReadAt s h0) = .ok rs ∧ W'.sensor (secondReadAt s h0) = .ok rs') :
    Home W' s h0 = Home W s h0 := by
  simp only [firstReadAt] at hfirst
  simp only [secondReadAt] at hsecond
  cases c1 : W.motor h0 1 with
  | some e => simp [Home, c1, hmotor]
  | none =>
  cases c2 : W.motor (h0 ++ [Call.setPower 1, Call.sleep (transitSeconds s)]) 0 with
  | some e => simp [Home, c1, c2, hmotor, duringWait_congr W W' hclose]
  | none =>
  cases c3 : W.sensor (h0 ++ [Call.setPower 1, Call.sleep (transitSeconds s),
    Call.setPower 0]) with
  | error e => simp [Home, c1, c2, c3, hmotor, hfirst, duringWait_congr W W' hclose]
  | ok rs =>
  cases c4 : rs s.positionSensorField with
  | none =>
    simp [Home, c1, c2, c3, hmotor, hfirst, duringWait_congr W W' hclose, duringWait_field, c4]
  | some position =>
  by_cases c5 : (position.assertFloat64).2 = false
  · simp [Home, c1, c2, c3, hmotor, hfirst, duringWait_congr W W' hclose, duringWait_field,
      c4, c5]
  cases c6 : W.motor (h0 ++ [Call.setPower 1, Call.sleep (transitSeconds s), Call.setPower 0,
    Call.readings]) (-1) with
  | some e =>
    simp [Home, c1, c2, c3, hmotor, hfirst, duringWait_congr W W' hclose, duringWait_field,
      c4, c5, c6]
  | none =>
  rcases hsecond with hsame | ⟨rs2, rs2', hok, hok'⟩
  · simp [Home, c1, c2, c3, hmotor, hfirst, duringWait_congr W W' hclose, duringWait_field,
      c4, c5, c6, duringWait_seconds, setMax_seconds, hsame]
  · simp [Home, c1, c2, c3, hmotor, hfirst, duringWait_congr W W' hclose, duringWait_field,
      c4, c5, c6, duringWait_seconds, setMax_seconds, hok, hok']

/-! ## Theorems -/

/-- C7. When the bounds are unset, the motor accepts every command and every reading set
lacks the configured field, `Home` returns `(false, err)`, the text of `err` contains the
field name, and both bounds are still unset. -/
theorem Home_missing_field (W : World) (s : Actuator) (h0 : List Call)
    (hmax : s.maxSensorPosition = none) (hmin : s.minSensorPosition = none)
    (hmotor : ∀ h p, W.motor h p = none)
    (hsensor : ∀ h, ∃ rs, W.sensor h = .ok rs ∧ rs s.positionSensorField = none) :
    (Home W s h0).value = false ∧
    (∃ e, (Home W s h0).err = some e ∧ mentions e.Error s.positionSensorField) ∧
    (Home W s h0).state.maxSensorPosition = none ∧
    (Home W s h0).state.minSensorPosition = none := by
  obtain ⟨rs, hrs, hnone⟩ := hsensor (firstReadAt s h0)
  simp only [firstReadAt] at hrs
  simp only [Home, hmotor, List.append_assoc, List.singleton_append, List.cons_append,
    List.nil_append, hrs, duringWait_field, hnone, duringWait_max, duringWait_min, hmax, hmin]
  refine ⟨trivial, ⟨_, rfl, ?_⟩, trivial, trivial⟩
  exact mentions_mid _ _ _

/-- C10. Whenever `Home` returns `(true, nil)`, both stored bounds hold the float64 found
under the configured field in the first reading set; and replacing the contents of a
successful second reading set by any other contents changes nothing in the run: same
result, same error, same stored bounds, same outside calls. -/
theorem Home_success_stores_first_sample_twice (W : World) (s : Actuator) (h0 : List Call) :
    ((Home W s h0).value = true → (Home W s h0).err = none →
      ∃ rs v, W.sensor (firstReadAt s h0) = .ok rs ∧
        rs s.positionSensorField = some (Value.float64 v) ∧
        (Home W s h0).state.maxSensorPosition = some v ∧
        (Home W s h0).state.minSensorPosition = some v) ∧
    (∀ W' : World, W'.motor = W.motor → W'.closeDuring = W.closeDuring →
      W'.sensor (firstReadAt s h0) = W.sensor (firstReadAt s h0) →
      (∃ rs rs', W.sensor (secondReadAt s h0) = .ok rs ∧
        W'.sensor (secondReadAt s h0) = .ok rs') →
      Home W' s h0 = Home W s h0) := by
  refine ⟨fun hv _ => ?_, fun W' hm hc hf hs => ?_⟩
  · obtain ⟨rs, v, _, h1, h2, _, _, h4, h5, _⟩ := Home_of_value_true W s h0 hv
    exact ⟨rs, v, h1, h2, h4, h5⟩
  · exact Home_congr_second W W' s h0 hm hc hf (Or.inr hs)

/-- C10, exercised: the sensor answers `pos = 100` then `pos = 0`; the bounds are both 100,
and a second answer without any field gives the very same run. -/
theorem Home_success_stores_first_sample_twice_witness :
    (∃ rs v, (fakeWorld (singleField "pos" (.float64 100)) (singleField "pos" (.float64 0))).sensor
          (firstReadAt (freshActuator "pos" none) []) = .ok rs ∧
        rs (freshActuator "pos" none).positionSensorField = some (Value.float64 v) ∧
        (Home (fakeWorld (singleField "pos" (.float64 100)) (singleField "pos" (.float64 0)))
          (freshActuator "pos" none) []).state.maxSensorPosition = some v ∧
        (Home (fakeWorld (singleField "pos" (.float64 100)) (singleField "pos" (.float64 0)))
          (freshActuator "pos" none) []).state.minSensorPosition = some v) ∧
    Home (fakeWorld (singleField "pos" (.float64 100)) noField) (freshActuator "pos" none) [] =
      Home (fakeWorld (singleField "pos" (.float64 100)) (singleField "pos" (.float64 0)))
        (freshActuator "pos" none) [] :=
  ⟨(Home_success_stores_first_sample_twice
      (fakeWorld (singleField "pos" (.float64 100)) (singleField "pos" (.float64 0)))
      (freshActuator "pos" none) []).1 (by decide) (by decide),
   (Home_success_stores_first_sample_twice
      (fakeWorld (singleField "pos" (.float64 100)) (singleField "pos" (.float64 0)))
      (freshActuator "pos" none) []).2
      (fakeWorld (singleField "pos" (.float64 100)) noField) rfl rfl rfl
      ⟨singleField "pos" (.float64 0), noField, rfl, rfl⟩⟩

/-- C7, exercised: no reading set has any field, the configured field is `pos`. -/
theorem Home_missing_field_witness :
    (Home (fakeWorld noField noField) (freshActuator "pos" none) []).value = false ∧
    (∃ e, (Home (fakeWorld noField noField) (freshActuator "pos" none) []).err = some e ∧
      mentions e.Error (freshActuator "pos" none).positionSensorField) ∧
    (Home (fakeWorld noField noField) (freshActuator "pos" none) []).state.maxSensorPosition
      = none ∧
    (Home (fakeWorld noField noField) (freshActuator "pos" none) []).state.minSensorPosition
      = none :=
  Home_missing_field (fakeWorld noField noField) (freshActuator "pos" none) [] rfl rfl
    (fun _ _ => rfl) (fun h => ⟨noField, by simp [fakeWorld], rfl⟩)

/-- C1 (the code departs from it). With a motor accepting every command and reading sets
holding `a` at the first read and `b` at the second under the configured field, `Home`
returns `(true, nil)` and stores `a` as the maximum, but it stores `a` as the minimum too:
the minimum is `b` only when `a = b`. -/
theorem Home_min_is_first_sample (W : World) (s : Actuator) (h0 : List Call)
    (a b : Float64) (rs1 rs2 : Readings)
    (hmotor : ∀ h p, W.motor h p = none)
    (h1 : W.sensor (firstReadAt s h0) = .ok rs1)
    (h2 : W.sensor (secondReadAt s h0) = .ok rs2)
    (ha : rs1 s.positionSensorField = some (Value.float64 a))
    (_hb : rs2 s.positionSensorField = some (Value.float64 b)) :
    (Home W s h0).value = true ∧ (Home W s h0).err = none ∧
    (Home W s h0).state.maxSensorPosition = some a ∧
    (Home W s h0).state.minSensorPosition = some a ∧
    ((Home W s h0).state.minSensorPosition = some b ↔ a = b) := by
  simp only [firstReadAt] at h1
  simp only [secondReadAt] at h2
  have key : (Home W s h0).value = true ∧ (Home W s h0).err = none ∧
      (Home W s h0).state.maxSensorPosition = some a ∧
      (Home W s h0).state.minSensorPosition = some a := by
    simp [Home, hmotor, h1, h2, ha, duringWait_field, duringWait_seconds, setMax_seconds,
      Value.assertFloat64, duringWait_max, duringWait_min, setMax_max, setMin_max, setMin_min]
  refine ⟨key.1, key.2.1, key.2.2.1, key.2.2.2, ?_⟩
  rw [key.2.2.2]
  simp

/-- C1, exercised at `a = 100`, `b = 0` under the field `pos`: the stored minimum is 100. -/
theorem Home_min_is_first_sample_witness :
    (Home (fakeWorld (singleField "pos" (.float64 100)) (singleField "pos" (.float64 0)))
      (freshActuator "pos" none) []).value = true ∧
    (Home (fakeWorld (singleField "pos" (.float64 100)) (singleField "pos" (.float64 0)))
      (freshActuator "pos" none) []).err = none ∧
    (Home (fakeWorld (singleField "pos" (.float64 100)) (singleField "pos" (.float64 0)))
      (freshActuator "pos" none) []).state.maxSensorPosition = some 100 ∧
    (Home (fakeWorld (singleField "pos" (.float64 100)) (singleField "pos" (.float64 0)))
      (freshActuator "pos" none) []).state.minSensorPosition = some 100 ∧
    ((Home (fakeWorld (singleField "pos" (.float64 100)) (singleField "pos" (.float64 0)))
      (freshActuator "pos" none) []).state.minSensorPosition = some 0 ↔ (100 : Float64) = 0) :=
  Home_min_is_first_sample
    (fakeWorld (singleField "pos" (.float64 100)) (singleField "pos" (.float64 0)))
    (freshActuator "pos" none) [] 100 0
    (singleField "pos" (.float64 100)) (singleField "pos" (.float64 0))
    (fun _ _ => rfl) rfl rfl rfl rfl

/-- C3 (the code departs from it). With a motor accepting every command and a valid first
read, a second reading set that lacks the configured field, or holds under it a value that
is not a float64, does not make `Home` fail: it returns `(true, nil)`. -/
theorem Home_second_sample_not_validated (W : World) (s : Actuator) (h0 : List Call)
    (a : Float64) (rs1 rs2 : Readings)
    (hmotor : ∀ h p, W.motor h p = none)
    (h1 : W.sensor (firstReadAt s h0) = .ok rs1)
    (ha : rs1 s.positionSensorField = some (Value.float64 a))
    (h2 : W.sensor (secondReadAt s h0) = .ok rs2)
    (_hbad : rs2 s.positionSensorField = none ∨
      ∃ x, rs2 s.positionSensorField = some x ∧ (x.assertFloat64).2 = false) :
    (Home W s h0).value = true ∧ (Home W s h0).err = none := by
  simp only [firstReadAt] at h1
  simp only [secondReadAt] at h2
  simp [Home, hmotor, h1, h2, ha, duringWait_field, duringWait_seconds, setMax_seconds,
    Value.assertFloat64]

/-- C3, exercised: the second reading set has no field at all. -/
theorem Home_second_sample_not_validated_witness :
    (Home (fakeWorld (singleField "pos" (.float64 100)) noField)
      (freshActuator "pos" none) []).value = true ∧
    (Home (fakeWorld (singleField "pos" (.float64 100)) noField)
      (freshActuator "pos" none) []).err = none :=
  Home_second_sample_not_validated (fakeWorld (singleField "pos" (.float64 100)) noField)
    (freshActuator "pos" none) [] 100 (singleField "pos" (.float64 100)) noField
    (fun _ _ => rfl) rfl rfl rfl (Or.inl rfl)

/-- C4 (the code departs from it). Every run of `Home` that returns `(true, nil)` makes
exactly the calls power +1, wait, power 0, read, power -1, wait, read: the power commands
are +1, 0, -1 and the last one the motor received is -1, not 0. -/
theorem Home_success_power_commands (W : World) (s : Actuator) (h0 : List Call)
    (hv : (Home W s h0).value = true) (_he : (Home W s h0).err = none) :
    (Home W s h0).issued h0 =
      [Call.setPower 1, Call.sleep (transitSeconds s), Call.setPower 0, Call.readings,
        Call.setPower (-1), Call.sleep (transitSeconds s), Call.readings] ∧
    powerCommands ((Home W s h0).issued h0) = [1, 0, -1] ∧
    (powerCommands ((Home W s h0).issued h0)).getLast? = some (-1) := by
  obtain ⟨_, _, _, _, _, _, _, _, _, hc⟩ := Home_of_value_true W s h0 hv
  have hi : (Home W s h0).issued h0 =
      [Call.setPower 1, Call.sleep (transitSeconds s), Call.setPower 0, Call.readings,
        Call.setPower (-1), Call.sleep (transitSeconds s), Call.readings] := by
    simp [Outcome.issued, hc, secondReadAt]
  rw [hi]
  simp [powerCommands]

/-- C4, exercised with a motor accepting every command and a sensor answering `pos = 100`. -/
theorem Home_success_power_commands_witness :
    (Home (fakeWorld (singleField "pos" (.float64 100)) (singleField "pos" (.float64 100)))
        (freshActuator "pos" none) []).issued [] =
      [Call.setPower 1, Call.sleep (transitSeconds (freshActuator "pos" none)), Call.setPower 0,
        Call.readings, Call.setPower (-1),
        Call.sleep (transitSeconds (freshActuator "pos" none)), Call.readings] ∧
    powerCommands ((Home
      (fakeWorld (singleField "pos" (.float64 100)) (singleField "pos" (.float64 100)))
      (freshActuator "pos" none) []).issued []) = [1, 0, -1] ∧
    (powerCommands ((Home
      (fakeWorld (singleField "pos" (.float64 100)) (singleField "pos" (.float64 100)))
      (freshActuator "pos" none) []).issued [])).getLast? = some (-1) :=
  Home_success_power_commands
    (fakeWorld (singleField "pos" (.float64 100)) (singleField "pos" (.float64 100)))
    (freshActuator "pos" none) [] (by decide) (by decide)

/-- C2, refuted as stated: the bounds are unset, the motor refuses the retract command, and
`Home` returns an error with the maximum bound already set to 100. -/
theorem Home_error_after_first_sample_changes_max :
    (Home stallOnRetract (freshActuator "pos" none) []).value = false ∧
    (Home stallOnRetract (freshActuator "pos" none) []).err ≠ none ∧
    (freshActuator "pos" none).maxSensorPosition = none ∧
    (Home stallOnRetract (freshActuator "pos" none) []).state.maxSensorPosition = some 100 ∧
    ¬ ((Home stallOnRetract (freshActuator "pos" none) []).state.maxSensorPosition
        = (freshActuator "pos" none).maxSensorPosition ∧
       (Home stallOnRetract (freshActuator "pos" none) []).state.minSensorPosition
        = (freshActuator "pos" none).minSensorPosition) := by
  decide

/-- C2, amended. If `Home` returns an error, the minimum bound is what it was before the
call. The maximum bound is also what it was when the retract command was not yet issued
(failure at extend-start, extend-stop, first read or first field validation); once the
retract command was issued (failure at retract-start or at the second read) the maximum
bound holds the float64 found under the configured field in the first reading set. -/
theorem Home_error_bounds (W : World) (s : Actuator) (h0 : List Call)
    (he : (Home W s h0).err ≠ none) :
    (Home W s h0).state.minSensorPosition = s.minSensorPosition ∧
    ((-1 : Float64) ∉ powerCommands ((Home W s h0).issued h0) →
      (Home W s h0).state.maxSensorPosition = s.maxSensorPosition) ∧
    ((-1 : Float64) ∈ powerCommands ((Home W s h0).issued h0) →
      ∃ rs v, W.sensor (firstReadAt s h0) = .ok rs ∧
        rs s.positionSensorField = some (Value.float64 v) ∧
        (Home W s h0).state.maxSensorPosition = some v) := by
  have n1 : ¬ ((-1 : ℚ) = 1) := by norm_num
  have n0 : ¬ ((-1 : ℚ) = 0) := by norm_num
  cases c1 : W.motor h0 1 with
  | some e => simp [Home, c1, Outcome.issued, powerCommands, n1, n0]
  | none =>
  cases c2 : W.motor (h0 ++ [Call.setPower 1, Call.sleep (transitSeconds s)]) 0 with
  | some e =>
    simp [Home, c1, c2, Outcome.issued, powerCommands, n1, n0, duringWait_max, duringWait_min]
  | none =>
  cases c3 : W.sensor (firstReadAt s h0) with
  | error e =>
    simp only [firstReadAt] at c3
    simp [Home, c1, c2, c3, Outcome.issued, powerCommands, n1, n0, duringWait_max, duringWait_min]
  | ok rs =>
  cases c4 : rs s.positionSensorField with
  | none =>
    simp only [firstReadAt] at c3
    simp [Home, c1, c2, c3, duringWait_field, c4, Outcome.issued, powerCommands, n1, n0,
      duringWait_max, duringWait_min]
  | some position =>
  by_cases c5 : (position.assertFloat64).2 = false
  · simp only [firstReadAt] at c3
    simp [Home, c1, c2, c3, duringWait_field, c4, c5, Outcome.issued, powerCommands, n1, n0,
      duringWait_max, duringWait_min]
  have hpos : position = Value.float64 (position.assertFloat64).1 := assertFloat64_ok position c5
  cases c6 : W.motor (h0 ++ [Call.setPower 1, Call.sleep (transitSeconds s), Call.setPower 0,
    Call.readings]) (-1) with
  | some e =>
    refine ⟨?_, ?_, fun _ => ⟨rs, (position.assertFloat64).1, rfl, ?_, ?_⟩⟩
    · simp only [firstReadAt] at c3
      simp [Home, c1, c2, c3, duringWait_field, c4, c5, c6, duringWait_min, setMax_min]
    · simp only [firstReadAt] at c3
      simp [Home, c1, c2, c3, duringWait_field, c4, c5, c6, Outcome.issued, powerCommands, n1, n0]
    · rw [c4, ← hpos]
    · simp only [firstReadAt] at c3
      simp [Home, c1, c2, c3, duringWait_field, c4, c5, c6, setMax_max]
  | none =>
  cases c7 : W.sensor (secondReadAt s h0) with
  | error e =>
    refine ⟨?_, ?_, fun _ => ⟨rs, (position.assertFloat64).1, rfl, ?_, ?_⟩⟩
    · simp only [firstReadAt, secondReadAt] at c3 c7
      simp [Home, c1, c2, c3, duringWait_field, c4, c5, c6, duringWait_seconds,
        setMax_seconds, c7, duringWait_min, setMax_min]
    · simp only [firstReadAt, secondReadAt] at c3 c7
      simp [Home, c1, c2, c3, duringWait_field, c4, c5, c6, duringWait_seconds,
        setMax_seconds, c7, Outcome.issued, powerCommands, n1, n0]
    · rw [c4, ← hpos]
    · simp only [firstReadAt, secondReadAt] at c3 c7
      simp [Home, c1, c2, c3, duringWait_field, c4, c5, c6, duringWait_seconds,
        setMax_seconds, c7, duringWait_max, setMax_max]
  | ok rs2 =>
    exfalso
    apply he
    simp only [firstReadAt, secondReadAt] at c3 c7
    simp [Home, c1, c2, c3, duringWait_field, c4, c5, c6, duringWait_seconds,
      setMax_seconds, c7]

/-- C2 amended, exercised: the motor refuses the retract command; the minimum bound stays
unset and the maximum bound holds the first sample. -/
theorem Home_error_bounds_witness :
    (Home stallOnRetract (freshActuator "pos" none) []).state.minSensorPosition
      = (freshActuator "pos" none).minSensorPosition ∧
    ((-1 : Float64) ∉ powerCommands
        ((Home stallOnRetract (freshActuator "pos" none) []).issued []) →
      (Home stallOnRetract (freshActuator "pos" none) []).state.maxSensorPosition
        = (freshActuator "pos" none).maxSensorPosition) ∧
    ((-1 : Float64) ∈ powerCommands
        ((Home stallOnRetract (freshActuator "pos" none) []).issued []) →
      ∃ rs v, stallOnRetract.sensor (firstReadAt (freshActuator "pos" none) []) = .ok rs ∧
        rs (freshActuator "pos" none).positionSensorField = some (Value.float64 v) ∧
        (Home stallOnRetract (freshActuator "pos" none) []).state.maxSensorPosition = some v) :=
  Home_error_bounds stallOnRetract (freshActuator "pos" none) [] (by decide)

/-- C8, refuted as stated: `Close` arrives during the first transit wait, and `Home` still
makes every call of the full sequence with both waits of 30 seconds, issues no stop after
the retract command, returns `(true, nil)` and stores both bounds. -/
theorem Home_completes_when_closed_mid_wait :
    closedMidWait.closeDuring [Call.setPower 1] = true ∧
    (Home closedMidWait (freshActuator "pos" none) []).state.cancelled = true ∧
    (Home closedMidWait (freshActuator "pos" none) []).value = true ∧
    (Home closedMidWait (freshActuator "pos" none) []).err = none ∧
    (Home closedMidWait (freshActuator "pos" none) []).calls =
      [Call.setPower 1, Call.sleep 30, Call.setPower 0, Call.readings, Call.setPower (-1),
        Call.sleep 30, Call.readings] ∧
    (Home closedMidWait (freshActuator "pos" none) []).state.maxSensorPosition = some 100 ∧
    (Home closedMidWait (freshActuator "pos" none) []).state.minSensorPosition = some 100 := by
  decide

/-- C8, amended. `Home` never consults the cancellation scope: whatever the moments at which
`Close` arrives during the transit waits (`c`) and whether or not the scope was already
cancelled (`b`), `Home` returns the same result and error, makes the same outside calls
(both full waits included) and stores the same bounds as when nobody closes the actuator.
`Close` itself makes no outside call, returns nil and changes nothing in the actuator but
the scope, which it marks cancelled. -/
theorem Home_ignores_cancellation (W : World) (s : Actuator) (h0 : List Call)
    (c : List Call → Bool) (b : Bool) :
    (Home ⟨W.motor, W.sensor, c⟩ { s with cancelled := b } h0).value = (Home W s h0).value ∧
    (Home ⟨W.motor, W.sensor, c⟩ { s with cancelled := b } h0).err = (Home W s h0).err ∧
    (Home ⟨W.motor, W.sensor, c⟩ { s with cancelled := b } h0).calls = (Home W s h0).calls ∧
    (Home ⟨W.motor, W.sensor, c⟩ { s with cancelled := b } h0).state.maxSensorPosition
      = (Home W s h0).state.maxSensorPosition ∧
    (Home ⟨W.motor, W.sensor, c⟩ { s with cancelled := b } h0).state.minSensorPosition
      = (Home W s h0).state.minSensorPosition ∧
    (Close s h0).calls = h0 ∧ (Close s h0).err = none ∧
    (Close s h0).state.maxSensorPosition = s.maxSensorPosition ∧
    (Close s h0).state.minSensorPosition = s.minSensorPosition ∧
    (Close s h0).state = { s with cancelled := true } := by
  have ht : transitSeconds { s with cancelled := b } = transitSeconds s := rfl
  refine ⟨?_, ?_, ?_, ?_, ?_, rfl, rfl, rfl, rfl, rfl⟩ <;>
  · cases c1 : W.motor h0 1 with
    | some e => simp [Home, c1]
    | none =>
    cases c2 : W.motor (h0 ++ [Call.setPower 1, Call.sleep (transitSeconds s)]) 0 with
    | some e => simp [Home, c1, c2, ht, duringWait_max, duringWait_min]
    | none =>
    cases c3 : W.sensor (h0 ++ [Call.setPower 1, Call.sleep (transitSeconds s),
      Call.setPower 0]) with
    | error e => simp [Home, c1, c2, c3, ht, duringWait_max, duringWait_min]
    | ok rs =>
    cases c4 : rs s.positionSensorField with
    | none => simp [Home, c1, c2, c3, ht, duringWait_field, c4, duringWait_max, duringWait_min]
    | some position =>
    by_cases c5 : (position.assertFloat64).2 = false
    · simp [Home, c1, c2, c3, ht, duringWait_field, c4, c5, duringWait_max, duringWait_min]
    cases c6 : W.motor (h0 ++ [Call.setPower 1, Call.sleep (transitSeconds s), Call.setPower 0,
      Call.readings]) (-1) with
    | some e =>
      simp [Home, c1, c2, c3, ht, duringWait_field, c4, c5, c6, duringWait_max,
        duringWait_min, setMax_max, setMax_min]
    | none =>
    cases c7 : W.sensor (secondReadAt s h0) with
    | error e =>
      simp only [secondReadAt] at c7
      simp [Home, c1, c2, c3, ht, duringWait_field, c4, c5, c6, duringWait_seconds,
        setMax_seconds, c7, duringWait_max, duringWait_min, setMax_max, setMax_min]
    | ok rs2 =>
      simp only [secondReadAt] at c7
      simp [Home, c1, c2, c3, ht, duringWait_field, c4, c5, c6, duringWait_seconds,
        setMax_seconds, c7, duringWait_max, duringWait_min, setMax_max, setMax_min,
        setMin_max, setMin_min]

/-- C9. Each of `Position`, `Lengths`, `MoveToPosition`, `Stop`, `Kinematics`,
`CurrentInputs`, `GoToInputs`, `DoCommand` and `IsMoving` returns the zero value of its
result type together with an error whose text is `not implemented`, makes no outside call
and leaves the actuator, its bounds included, as it was. -/
theorem unsupported_methods (Model : Type) (s : Actuator) (h : List Call)
    (extra cmd : Readings) (positionsMm speedsMmPerSec : List Float64)
    (inputSteps : List (List Float64)) :
    ((Position s h extra).value = [] ∧
      (Position s h extra).err.map GoError.Error = some "not implemented" ∧
      (Position s h extra).calls = h ∧ (Position s h extra).state = s) ∧
    ((Lengths s h extra).value = [] ∧
      (Lengths s h extra).err.map GoError.Error = some "not implemented" ∧
      (Lengths s h extra).calls = h ∧ (Lengths s h extra).state = s) ∧
    ((MoveToPosition s h positionsMm speedsMmPerSec extra).err.map GoError.Error
        = some "not implemented" ∧
      (MoveToPosition s h positionsMm speedsMmPerSec extra).calls = h ∧
      (MoveToPosition s h positionsMm speedsMmPerSec extra).state = s) ∧
    ((Stop s h extra).err.map GoError.Error = some "not implemented" ∧
      (Stop s h extra).calls = h ∧ (Stop s h extra).state = s) ∧
    ((Kinematics s h : Outcome (Option Model)).value = none ∧
      (Kinematics s h : Outcome (Option Model)).err.map GoError.Error
        = some "not implemented" ∧
      (Kinematics s h : Outcome (Option Model)).calls = h ∧
      (Kinematics s h : Outcome (Option Model)).state = s) ∧
    ((CurrentInputs s h).value = [] ∧
      (CurrentInputs s h).err.map GoError.Error = some "not implemented" ∧
      (CurrentInputs s h).calls = h ∧ (CurrentInputs s h).state = s) ∧
    ((GoToInputs s h inputSteps).err.map GoError.Error = some "not implemented" ∧
      (GoToInputs s h inputSteps).calls = h ∧ (GoToInputs s h inputSteps).state = s) ∧
    ((∀ k, (DoCommand s h cmd).value k = none) ∧
      (DoCommand s h cmd).err.map GoError.Error = some "not implemented" ∧
      (DoCommand s h cmd).calls = h ∧ (DoCommand s h cmd).state = s) ∧
    ((IsMoving s h).value = false ∧
      (IsMoving s h).err.map GoError.Error = some "not implemented" ∧
      (IsMoving s h).calls = h ∧ (IsMoving s h).state = s) := by
  refine ⟨⟨rfl, rfl, rfl, rfl⟩, ⟨rfl, rfl, rfl, rfl⟩, ⟨rfl, rfl, rfl⟩, ⟨rfl, rfl, rfl⟩,
    ⟨rfl, rfl, rfl, rfl⟩, ⟨rfl, rfl, rfl, rfl⟩, ⟨rfl, rfl, rfl⟩, ⟨fun _ => rfl, rfl, rfl, rfl⟩,
    ⟨rfl, rfl, rfl, rfl⟩⟩

/-- C5. `Validate` returns a nil error exactly when `StrokeLength > 0` and `Motor`,
`Sensor.Name` and `Sensor.PositionField` are all non-empty; the required dependencies are
then `[Motor, Sensor.Name]`, and are empty otherwise; the optional dependencies are always
empty. -/
theorem Validate_ok_iff (cfg : Config) (path : String) :
    ((cfg.Validate path).2.2 = none ↔
      (0 < cfg.StrokeLength ∧ cfg.Motor ≠ "" ∧ cfg.Sensor.Name ≠ "" ∧
        cfg.Sensor.PositionField ≠ "")) ∧
    (cfg.Validate path).1 =
      (if 0 < cfg.StrokeLength ∧ cfg.Motor ≠ "" ∧ cfg.Sensor.Name ≠ "" ∧
          cfg.Sensor.PositionField ≠ "" then [cfg.Motor, cfg.Sensor.Name] else []) ∧
    (cfg.Validate path).2.1 = [] := by
  unfold Config.Validate
  by_cases h1 : cfg.StrokeLength ≤ 0
  · have : ¬ 0 < cfg.StrokeLength := not_lt.mpr h1
    simp [h1, this]
  · have h1' : 0 < cfg.StrokeLength := not_le.mp h1
    by_cases h2 : cfg.Motor = ""
    · simp [h1, h2]
    · by_cases h3 : cfg.Sensor.Name = ""
      · simp [h1, h2, h3]
      · by_cases h4 : cfg.Sensor.PositionField = ""
        · simp [h1, h2, h3, h4]
        · simp [h1, h1', h2, h3, h4]

/-- C6. The error of `Validate` is that of the first failing check: its text contains
`stroke_length` when `StrokeLength <= 0`, whatever the other fields; otherwise contains
`motor` when `Motor` is empty; otherwise is `position-sensor name must be specified` when
`Sensor.Name` is empty; otherwise contains `position_field` when `Sensor.PositionField` is
empty. -/
theorem Validate_first_failure (cfg : Config) (path : String) :
    (cfg.StrokeLength ≤ 0 →
      ∃ e, (cfg.Validate path).2.2 = some e ∧
        e.Error = "stroke_length must be greater than 0" ∧ mentions e.Error "stroke_length") ∧
    (0 < cfg.StrokeLength → cfg.Motor = "" →
      ∃ e, (cfg.Validate path).2.2 = some e ∧
        e.Error = "motor must be specified" ∧ mentions e.Error "motor") ∧
    (0 < cfg.StrokeLength → cfg.Motor ≠ "" → cfg.Sensor.Name = "" →
      ∃ e, (cfg.Validate path).2.2 = some e ∧
        e.Error = "position-sensor name must be specified" ∧
        mentions e.Error "position-sensor name") ∧
    (0 < cfg.StrokeLength → cfg.Motor ≠ "" → cfg.Sensor.Name ≠ "" →
      cfg.Sensor.PositionField = "" →
      ∃ e, (cfg.Validate path).2.2 = some e ∧
        e.Error = "position-sensor's position_field must be specified" ∧
        mentions e.Error "position_field") := by
  refine ⟨fun h1 => ?_, fun h1 h2 => ?_, fun h1 h2 h3 => ?_, fun h1 h2 h3 h4 => ?_⟩
  · refine ⟨.new "stroke_length must be greater than 0", ?_, rfl, by decide⟩
    simp [Config.Validate, h1]
  · refine ⟨.new "motor must be specified", ?_, rfl, by decide⟩
    simp [Config.Validate, not_le.mpr h1, h2]
  · refine ⟨.new "position-sensor name must be specified", ?_, rfl, by decide⟩
    simp [Config.Validate, not_le.mpr h1, h2, h3]
  · refine ⟨.new "position-sensor's position_field must be specified", ?_, rfl, by decide⟩
    simp [Config.Validate, not_le.mpr h1, h2, h3, h4]

/-- C6, exercised on four configurations, one per check: stroke length 0 with every other
field empty as well; then an empty motor; then an empty sensor name; then an empty position
field. -/
theorem Validate_first_failure_witness :
    (∃ e, ((⟨0, none, "", ⟨"", ""⟩⟩ : Config).Validate "components.0").2.2 = some e ∧
      e.Error = "stroke_length must be greater than 0" ∧ mentions e.Error "stroke_length") ∧
    (∃ e, ((⟨5, none, "", ⟨"", ""⟩⟩ : Config).Validate "components.0").2.2 = some e ∧
      e.Error = "motor must be specified" ∧ mentions e.Error "motor") ∧
    (∃ e, ((⟨5, none, "m", ⟨"", ""⟩⟩ : Config).Validate "components.0").2.2 = some e ∧
      e.Error = "position-sensor name must be specified" ∧
      mentions e.Error "position-sensor name") ∧
    (∃ e, ((⟨5, none, "m", ⟨"sn", ""⟩⟩ : Config).Validate "components.0").2.2 = some e ∧
      e.Error = "position-sensor's position_field must be specified" ∧
      mentions e.Error "position_field") :=
  ⟨(Validate_first_failure ⟨0, none, "", ⟨"", ""⟩⟩ "components.0").1 (by decide),
   (Validate_first_failure ⟨5, none, "", ⟨"", ""⟩⟩ "components.0").2.1 (by decide) rfl,
   (Validate_first_failure ⟨5, none, "m", ⟨"", ""⟩⟩ "components.0").2.2.1 (by decide)
     (by decide) rfl,
   (Validate_first_failure ⟨5, none, "m", ⟨"sn", ""⟩⟩ "components.0").2.2.2 (by decide)
     (by decide) (by decide) rfl⟩

end LinearActuator
